import Mathlib

/-!
Verification development for the WorkspaceGPT multi-agent pipeline.

Shallow embedding of the plan-execute-aggregate core:
- `backend/context/context_manager.py` (ConversationContext, add_entry)
- `backend/agents/planner.py` (plan validation, post-parse outcome)
- `backend/agents/retriever.py` (search, search_by_document, get_document_list,
  search_multiple_queries)
- `backend/agents/executor.py` (execute dispatcher and the five capabilities)
- `backend/main_chroma.py` (process_query driver, parameter rewriting,
  step logging, final summary)

Modelling conventions, stated once:
- JSON-ish Python values (plan fields, step parameters) are the inductive
  `JVal`; Python dicts are association lists `Params` with first-binding
  lookup, in-place replacement on update and full removal on `del`,
  matching dict semantics (plans parsed from JSON have unique keys).
- Similarity scores are integers (a float score rounded to 4 decimals is
  represented scaled by 10^4); float formatting and wall-clock timestamps,
  generated ids and decorative human-readable summary strings that no other
  component reads are omitted.
- Outbound service calls (the OpenAI chat completion, the Chroma
  similarity_search backend, get_stats) are oracle functions in `Env`;
  a Python exception raised by a call is `Except.error`.
- A Python exception raised by the repository's own code is `Except.error`
  as well; `process_query`'s top-level `except` is the `LoopOut.aborted` /
  error-result branch.
-/

/-- A JSON-like Python value: plan fields and step parameters. -/
inductive JVal where
  | null : JVal
  | bool (b : Bool) : JVal
  | num (n : Int) : JVal
  | str (s : String) : JVal
  | arr (l : List JVal) : JVal
  | obj (fields : List (String × JVal)) : JVal

/-- A Python dict with string keys, as an association list. -/
abbrev Params := List (String × JVal)

/-- Dict lookup: `d.get(k)` / `d[k]`. First binding wins. -/
def pget : Params → String → Option JVal
  | [], _ => none
  | (k', v) :: rest, k => if k' = k then some v else pget rest k

/-- Dict membership test: `k in d`. -/
def pcontains (p : Params) (k : String) : Bool :=
  (pget p k).isSome

/-- Dict update `d[k] = v`: replace in place if present, else append. -/
def pset : Params → String → JVal → Params
  | [], k, v => [(k, v)]
  | (k', v') :: rest, k, v =>
    if k' = k then (k', v) :: rest else (k', v') :: pset rest k v

/-- Dict removal `del d[k]` (removes the key wherever it occurs). -/
def perase : Params → String → Params
  | [], _ => []
  | (k', v') :: rest, k =>
    if k' = k then perase rest k else (k', v') :: perase rest k

/-- Python str() coercion as used in f-strings. Rendering of composite
values (Python repr) is abstracted: no modelled component observes it. -/
def pvStr : JVal → String
  | .null => "None"
  | .bool b => if b then "True" else "False"
  | .num n => toString n
  | .str s => s
  | .arr _ => "<list>"
  | .obj _ => "<dict>"

/-- Character-list prefix test. -/
def listPrefix : List Char → List Char → Bool
  | [], _ => true
  | _ :: _, [] => false
  | c :: cs, d :: ds => c = d && listPrefix cs ds

/-- Character-list infix test. -/
def listInfix (pat : List Char) : List Char → Bool
  | [] => listPrefix pat []
  | c :: rest => listPrefix pat (c :: rest) || listInfix pat rest

/-- Substring test, used for Python `in` on strings. -/
def containsSub (s pat : String) : Bool :=
  listInfix pat.data s.data

/-- A single quote character, for rendering Python messages that quote text. -/
def pyQuote : String := String.singleton (Char.ofNat 39)

/-! ## Vector-store boundary (external collaborator, per spec section 1) -/

/-- Metadata of one stored chunk as returned by `similarity_search`;
absent keys surface as the string `unknown` in formatted results. -/
structure ChunkMeta where
  source_file : Option String
  page : Option Int
  chunk_id : Option Int
deriving DecidableEq

/-- One raw result dict of `ChromaVectorStore.similarity_search`. -/
structure RawChunk where
  content : String
  metadata : ChunkMeta
  similarity_score : Int
deriving DecidableEq

/-- Output of `ChromaVectorStore.get_stats` (fields the retriever reads). -/
structure StatsInfo where
  status : String
  source_files : List String

/-! ## RetrieverAgent (backend/agents/retriever.py) -/

/-- One formatted search result (retriever.py, `search`, lines 25-35).
`chunk_id`/`page` are `none` when the metadata key is missing (Python
default `"unknown"`); two missing ids compare equal in both models. -/
structure SearchItem where
  rank : Nat
  content : String
  source_file : String
  page : Option Int
  chunk_id : Option Int
  similarity_score : Int
  content_preview : String
deriving DecidableEq

/-- content[:200] + ellipsis when longer than 200 characters. -/
def previewOf (c : String) : String :=
  if c.length > 200 then c.take 200 ++ "..." else c

/-- Format one raw chunk at 0-based index `i` (rank is `i + 1`). -/
def formatChunk (i : Nat) (r : RawChunk) : SearchItem :=
  { rank := i + 1
    content := r.content
    source_file := r.metadata.source_file.getD "unknown"
    page := r.metadata.page
    chunk_id := r.metadata.chunk_id
    similarity_score := r.similarity_score
    content_preview := previewOf r.content }

/-- Enumerate-and-format loop of `search` / `search_by_document`. -/
def formatChunksFrom (i : Nat) : List RawChunk → List SearchItem
  | [] => []
  | r :: rest => formatChunk i r :: formatChunksFrom (i + 1) rest

/-- Result dict of `RetrieverAgent.search` (summary text omitted). -/
structure SearchRes where
  success : Bool
  query : JVal
  total_results : Nat
  results : List SearchItem
  error : Option String

/-- The similarity-search oracle: query value, k value, score threshold. -/
def StoreFn : Type := JVal → JVal → Int → Except String (List RawChunk)

/-- Default `score_threshold=0.3` of `search`, scaled by 10^4. -/
def defaultScoreThreshold : Int := 3000

/-- RetrieverAgent.search: call the backend, format ranked results;
convert a backend exception into a failure result. -/
def RetrieverAgent.search (store : StoreFn) (query : JVal) (k : JVal)
    (score_threshold : Int) : SearchRes :=
  match store query k score_threshold with
  | .ok rs =>
    let formatted := formatChunksFrom 0 rs
    { success := true, query := query, total_results := formatted.length
      results := formatted, error := none }
  | .error e =>
    { success := false, query := query, total_results := 0, results := []
      error := some ("Search failed: " ++ e) }

/-- Python list slice `l[:n]` for possibly negative `n`. -/
def pySlice (n : Int) (l : List α) : List α :=
  if 0 ≤ n then l.take n.toNat else l.take (l.length - (-n).toNat)

/-- RetrieverAgent.search_by_document: over-fetch `k*3`, filter by source
(case-insensitive), truncate to `k`, re-format. A non-string source or a
non-integer `k` makes the Python body raise inside its own try, which
yields the failure result. -/
def RetrieverAgent.search_by_document (store : StoreFn) (query : JVal)
    (source_file : JVal) (k : JVal) : SearchRes :=
  match source_file, k with
  | .str sf, .num n =>
    match store query (.num (n * 3)) defaultScoreThreshold with
    | .ok allr =>
      let filtered := allr.filter
        (fun r => (r.metadata.source_file.getD "").toLower = sf.toLower)
      let kept := formatChunksFrom 0 (pySlice n filtered)
      { success := true, query := query, total_results := kept.length
        results := kept, error := none }
    | .error e =>
      { success := false, query := query, total_results := 0, results := []
        error := some ("Document search failed: " ++ e) }
  | _, _ =>
    { success := false, query := query, total_results := 0, results := []
      error := some ("Document search failed: TypeError") }

/-- One entry of `get_document_list`'s documents list. -/
structure DocInfo where
  filename : String
  chunk_count : Nat
deriving DecidableEq

/-- Result dict of `RetrieverAgent.get_document_list`. The Python failure
dicts carry no `total_documents`; the field is unread there and set to 0. -/
structure DocListRes where
  success : Bool
  total_documents : Nat
  documents : List DocInfo
  error : Option String

/-- RetrieverAgent.get_document_list over the stats oracle and the
source-file metadata of the chunks held by the vector store. -/
def RetrieverAgent.get_document_list (stats : Except String StatsInfo)
    (documents : List (Option String)) : DocListRes :=
  match stats with
  | .error e =>
    { success := false, total_documents := 0, documents := []
      error := some ("Failed to get document list: " ++ e) }
  | .ok st =>
    if st.status ≠ "initialized" then
      { success := false, total_documents := 0, documents := []
        error := some "Vector store not initialized" }
    else
      let info := st.source_files.map (fun d =>
        { filename := d
          chunk_count := (documents.filter (fun c => c = some d)).length })
      { success := true, total_documents := st.source_files.length
        documents := info, error := none }

/-- Result dict of `search_multiple_queries` (per-query summaries omitted). -/
structure MultiRes where
  success : Bool
  queries : List String
  total_unique_results : Nat
  results : List SearchItem

/-- The concatenated pool built by the per-query loop of
`search_multiple_queries`: one `search` call per query, in order, keeping
the results of the successful calls. -/
def searchPool (store : StoreFn) (queries : List String) (k : Int) :
    List SearchItem :=
  queries.foldl
    (fun acc q =>
      let r := RetrieverAgent.search store (.str q) (.num k) defaultScoreThreshold
      if r.success then acc ++ r.results else acc)
    []

/-- Deduplication loop: keep the first occurrence of each chunk_id. -/
def dedupById (seen : List (Option Int)) : List SearchItem → List SearchItem
  | [] => []
  | x :: rest =>
    if seen.contains x.chunk_id then dedupById seen rest
    else x :: dedupById (x.chunk_id :: seen) rest

/-- Stable descending insertion by similarity score: the new element goes
before the first strictly smaller score, after earlier equal scores. -/
def insertDesc (x : SearchItem) : List SearchItem → List SearchItem
  | [] => [x]
  | y :: ys =>
    if x.similarity_score < y.similarity_score then y :: insertDesc x ys
    else x :: y :: ys

/-- Stable sort by descending similarity score. Python's `list.sort` with
`reverse=True` is a stable sort by the same key; a stable sort is
determined extensionally by key and stability, so this insertion
formulation computes the same list. -/
def sortDescByScore : List SearchItem → List SearchItem
  | [] => []
  | x :: xs => insertDesc x (sortDescByScore xs)

/-- Re-ranking loop: assign rank `n`, `n+1`, ... in list order. -/
def rerankFrom (n : Nat) : List SearchItem → List SearchItem
  | [] => []
  | x :: xs => { x with rank := n } :: rerankFrom (n + 1) xs

/-- RetrieverAgent.search_multiple_queries (retriever.py lines 156-195). -/
def RetrieverAgent.search_multiple_queries (store : StoreFn)
    (queries : List String) (k : Int) : MultiRes :=
  let pool := searchPool store queries k
  let uniqueResults := dedupById [] pool
  let sorted := sortDescByScore uniqueResults
  let reranked := rerankFrom 1 sorted
  { success := true, queries := queries
    total_unique_results := reranked.length, results := reranked }

/-- The list `[1, 2, ..., len]` starting at `n`: expected rank sequence. -/
def ranksFrom (n : Nat) : Nat → List Nat
  | 0 => []
  | len + 1 => n :: ranksFrom (n + 1) len

/-- First pool element carrying a given chunk id. -/
def firstWithId (pool : List SearchItem) (id : Option Int) : Option SearchItem :=
  pool.find? (fun x => x.chunk_id = id)

/-- Forget the rank field (re-ranking rewrites it). -/
def unrank (x : SearchItem) : SearchItem := { x with rank := 0 }

/-- `y` is, up to its rewritten rank, the first pool element with its id. -/
def isFirstOccurrence (pool : List SearchItem) (y : SearchItem) : Bool :=
  match firstWithId pool y.chunk_id with
  | some y0 => decide (unrank y = unrank y0)
  | none => false

/-! ## ExecutorAgent (backend/agents/executor.py) -/

/-- The LLM oracle: a chat-completion request (its user prompt; model,
temperature and token budget ride along unobserved) to returned text, or a
transport exception. -/
def LlmFn : Type := String → Except String String

/-- Payload (the `result` value) returned by one executor capability.
Generated ids, timestamps and derived length fields are omitted; the
`error` components are the error markers the capabilities embed when they
catch an LLM fault internally. -/
inductive CapPayload where
  | task (title description priority : JVal) : CapPayload
  | summary (text : String) (error : Option String) : CapPayload
  | report (title : JVal) (content : String) : CapPayload
  | checklist (title : JVal) (items : List String) (error : Option String) : CapPayload
  | analysis (text : String) (analysis_type : JVal) (error : Option String) : CapPayload

/-- The error marker (an `error` key) carried inside a capability payload. -/
def CapPayload.errorOf : CapPayload → Option String
  | .task _ _ _ => none
  | .summary _ e => e
  | .report _ _ => none
  | .checklist _ _ e => e
  | .analysis _ _ e => e

/-- Outcome of calling one capability: a returned payload, or a raised
Python exception (exception messages are abbreviated). -/
inductive CapOutcome where
  | ok (payload : CapPayload) : CapOutcome
  | raised (msg : String) : CapOutcome

/-- ExecutorAgent.create_task. Raises when `title` is missing (keyword
expansion of the parameters dict); the task dict has title, description,
priority fields only. -/
def ExecutorAgent.create_task (p : Params) : CapOutcome :=
  match pget p "title" with
  | none => .raised "TypeError: missing argument title"
  | some t =>
    .ok (.task t ((pget p "description").getD (.str ""))
      ((pget p "priority").getD (.str "medium")))

/-- ExecutorAgent.summarize. Raises when `content` is missing; converts an
LLM fault into an error-marked payload; a non-string content raises at the
`len(content)` in the success dict. -/
def ExecutorAgent.summarize (llm : LlmFn) (p : Params) : CapOutcome :=
  match pget p "content" with
  | none => .raised "TypeError: missing argument content"
  | some content =>
    let maxLen := (pget p "max_length").getD (.num 200)
    let prompt := "Please summarize the following content in bullet points (max "
      ++ pvStr maxLen ++ " words):\n\n" ++ pvStr content
      ++ "\n\nReturn a concise summary in bullet point format."
    match llm prompt with
    | .ok text =>
      match content with
      | .str _ => .ok (.summary text.trim none)
      | _ => .raised "TypeError: object has no len"
    | .error e => .ok (.summary ("Error generating summary: " ++ e) (some e))

/-- Section rendering loop body of generate_report: one heading+body block
per section dict, failing at the first non-dict element. -/
def renderSectionList : List JVal → Except String String
  | [] => .ok ""
  | .obj f :: rest => do
    let head := "## " ++ pvStr ((pget f "title").getD (.str "Section"))
      ++ "\n\n" ++ pvStr ((pget f "content").getD (.str "")) ++ "\n\n"
    let tail ← renderSectionList rest
    .ok (head ++ tail)
  | _ :: _ => .error "AttributeError"

/-- Section rendering of generate_report; raises on a sections value
that is not a list of dicts (non-empty strings/dicts iterate into
non-dict elements; other scalars are not iterable). -/
def renderSections : JVal → Except String String
  | .arr l => renderSectionList l
  | .str s => if s = "" then .ok "" else .error "AttributeError"
  | .obj [] => .ok ""
  | .obj (_ :: _) => .error "AttributeError"
  | _ => .error "TypeError: not iterable"

/-- ExecutorAgent.generate_report. Raises when `title` or `sections` is
missing; the generation-timestamp line is omitted from the content. -/
def ExecutorAgent.generate_report (p : Params) : CapOutcome :=
  match pget p "title", pget p "sections" with
  | some title, some sections =>
    match renderSections sections with
    | .ok body => .ok (.report title ("# " ++ pvStr title ++ "\n\n" ++ body))
    | .error e => .raised e
  | _, _ => .raised "TypeError: missing argument"

/-- Everything after the first dot: Python `line.split(".", 1)[-1]`. -/
def afterFirstDot (s : String) : String :=
  match s.splitOn "." with
  | [] => s
  | [x] => x
  | _ :: rest => String.intercalate "." rest

/-- The list-marker prefixes create_checklist recognizes. -/
def checklistMarkers : List String :=
  ["1.", "2.", "3.", "4.", "5.", "6.", "7.", "8.", "9.", "-", "•"]

/-- Parse one checklist line: keep it only when it starts with a marker;
take the text after the first dot when the line has one, else drop the
first character. -/
def parseChecklistLine (line : String) : Option String :=
  let l := line.trim
  if checklistMarkers.any (fun m => l.startsWith m) then
    some (if containsSub l "." then (afterFirstDot l).trim else (l.drop 1).trim)
  else none

/-- Best-effort item extraction from the checklist response text. -/
def parseChecklistItems (text : String) : List String :=
  (text.splitOn "\n").filterMap parseChecklistLine

/-- ExecutorAgent.create_checklist. Raises when `title` is missing;
converts an LLM fault into an error-marked empty checklist. -/
def ExecutorAgent.create_checklist (llm : LlmFn) (p : Params) : CapOutcome :=
  match pget p "title" with
  | none => .raised "TypeError: missing argument title"
  | some title =>
    let content := (pget p "content").getD (.str "")
    let prompt := "Extract actionable checklist items from the following content:\n\n"
      ++ pvStr content ++ "\n\nReturn a numbered list of clear, actionable items."
    match llm prompt with
    | .ok text => .ok (.checklist title (parseChecklistItems text.trim) none)
    | .error e => .ok (.checklist title [] (some e))

/-- ExecutorAgent.analyze_content. Raises when `content` is missing;
converts an LLM fault into an error-marked payload. -/
def ExecutorAgent.analyze_content (llm : LlmFn) (p : Params) : CapOutcome :=
  match pget p "content" with
  | none => .raised "TypeError: missing argument content"
  | some content =>
    let analysis_type := (pget p "analysis_type").getD (.str "general")
    let prompt := "Analyze this content and provide key insights and important points:\n\n"
      ++ pvStr content ++ "\n\nProvide a structured analysis with clear sections."
    match llm prompt with
    | .ok text => .ok (.analysis text.trim analysis_type none)
    | .error e =>
      .ok (.analysis ("Error during analysis: " ++ e) analysis_type (some e))

/-- Keys of `self.available_actions`, in definition order. -/
def availableActions : List String :=
  ["create_task", "summarize", "generate_report", "create_checklist", "analyze_content"]

/-- Call the capability bound to an action name. Only reached when the
action is in `availableActions` (the `execute` dispatcher checks first). -/
def ExecutorAgent.invoke (llm : LlmFn) (action : String) (p : Params) : CapOutcome :=
  if action = "create_task" then ExecutorAgent.create_task p
  else if action = "summarize" then ExecutorAgent.summarize llm p
  else if action = "generate_report" then ExecutorAgent.generate_report p
  else if action = "create_checklist" then ExecutorAgent.create_checklist llm p
  else ExecutorAgent.analyze_content llm p

/-- Result dict of `ExecutorAgent.execute`. `parameters` is absent
(`none`) in the unknown-action dict; timestamps omitted. -/
structure ExecResult where
  success : Bool
  action : String
  parameters : Option Params
  error : Option String
  result : Option CapPayload

/-- ExecutorAgent.execute (executor.py lines 25-53): unknown actions fail;
a capability that returns is wrapped with success True; a capability that
raises is caught and wrapped with success False. -/
def ExecutorAgent.execute (llm : LlmFn) (action : String) (p : Params) : ExecResult :=
  if action ∈ availableActions then
    match ExecutorAgent.invoke llm action p with
    | .ok payload =>
      { success := true, action := action, parameters := some p
        error := none, result := some payload }
    | .raised e =>
      { success := false, action := action, parameters := some p
        error := some ("Execution failed: " ++ e), result := none }
  else
    { success := false, action := action, parameters := none
      error := some ("Unknown action: " ++ action), result := none }

/-! ## PlannerAgent validation (backend/agents/planner.py) -/

/-- PlannerAgent._validate_plan, per-step check (planner.py lines 142-149):
all four step fields present, then the agent name in the two-member set.
A non-dict step raises (`field in step` on a non-container). -/
def validate_step (s : JVal) : Except String Bool :=
  match s with
  | .obj f =>
    if ["step_number", "agent", "action", "description"].all (fun k => pcontains f k) then
      match pget f "agent" with
      | some (.str a) => .ok (a = "Retriever" ∨ a = "Executor")
      | _ => .ok false
    else .ok false
  | _ => .error "TypeError"

/-- The per-step loop: returns False at the first failing step. -/
def validate_steps : List JVal → Except String Bool
  | [] => .ok true
  | s :: rest =>
    match validate_step s with
    | .error e => .error e
    | .ok false => .ok false
    | .ok true => validate_steps rest

/-- PlannerAgent._validate_plan (planner.py lines 129-151). For non-dict
plans Python's `field in plan` is list/substring membership or raises;
`plan["steps"]` then raises on the containers. -/
def validate_plan (plan : JVal) : Except String Bool :=
  match plan with
  | .obj f =>
    if ["analysis", "steps", "expected_outcome"].all (fun k => pcontains f k) then
      match pget f "steps" with
      | some (.arr steps) =>
        if steps.isEmpty then .ok false else validate_steps steps
      | _ => .ok false
    else .ok false
  | .arr l =>
    if ["analysis", "steps", "expected_outcome"].all
        (fun k => l.any (fun x => match x with | .str s => s = k | _ => false)) then
      .error "TypeError"
    else .ok false
  | .str s =>
    if ["analysis", "steps", "expected_outcome"].all (fun k => containsSub s k) then
      .error "TypeError"
    else .ok false
  | _ => .error "TypeError"

/-- The post-parse stage of PlannerAgent.plan (planner.py lines 85-99):
given a successfully parsed plan object, success is exactly a True
validation; a validation exception escapes to the outer handler which
returns the API-error failure dict. -/
structure PyPlanResult where
  success : Bool
  plan : Option JVal
  error : Option String
  raw_response : String

/-- Outcome of `plan()` after `json.loads` succeeded on `raw`. -/
def planFromParsed (raw : String) (j : JVal) : PyPlanResult :=
  match validate_plan j with
  | .ok true =>
    { success := true, plan := some j, error := none, raw_response := raw }
  | .ok false =>
    { success := false, plan := none
      error := some "Generated plan has invalid structure", raw_response := raw }
  | .error e =>
    { success := false, plan := none
      error := some ("OpenAI API error: " ++ e), raw_response := raw }

/-! ## The driver's typed view of a validated plan -/

/-- One plan step as the driver reads it (main_chroma.py lines 96-100).
Validation guarantees the four fields; `parameters` defaults to the empty
dict; the agent name is one of the two validated strings, the action and
description strings are the rendered field values. -/
structure Step where
  step_number : Int
  agent : String
  action : String
  description : String
  parameters : Params

/-- A validated plan as the driver reads it. -/
structure Plan where
  analysis : JVal
  expected_outcome : JVal
  steps : List Step

/-- The typed view of one validated step object. -/
def toStep (j : JVal) : Step :=
  match j with
  | .obj f =>
    { step_number := (match pget f "step_number" with | some (.num n) => n | _ => 0)
      agent := (match pget f "agent" with | some (.str s) => s | _ => "")
      action := pvStr ((pget f "action").getD .null)
      description := pvStr ((pget f "description").getD .null)
      parameters := (match pget f "parameters" with | some (.obj p) => p | _ => []) }
  | _ =>
    { step_number := 0, agent := "", action := "", description := "", parameters := [] }

/-- The typed view of a validated plan object. -/
def toPlan (j : JVal) : Plan :=
  match j with
  | .obj f =>
    { analysis := (pget f "analysis").getD .null
      expected_outcome := (pget f "expected_outcome").getD .null
      steps := (match pget f "steps" with
        | some (.arr l) => l.map toStep
        | _ => []) }
  | _ => { analysis := .null, expected_outcome := .null, steps := [] }

/-- What `planner.plan(user_query)` handed to the driver: a success dict
always carries the plan, a failure dict carries the error text. -/
inductive PlanOutcome where
  | ok (plan : Plan) : PlanOutcome
  | failed (error : String) : PlanOutcome

/-- The driver-side view of a `PyPlanResult`. -/
def planOutcomeOf (r : PyPlanResult) : PlanOutcome :=
  if r.success then .ok (toPlan (r.plan.getD .null)) else .failed (r.error.getD "")

/-! ## Retrieved-content buffer and step results (main_chroma.py) -/

/-- One `{source, content}` pair of the shared retrieved-content buffer
(main_chroma.py lines 110-113). -/
structure RItem where
  source : String
  content : String
deriving DecidableEq

/-- The buffer as the parameter value the driver injects (line 119). -/
def buffVal (buf : List RItem) : JVal :=
  .arr (buf.map (fun it => .obj [("source", .str it.source), ("content", .str it.content)]))

/-- Result of a retriever-routed step (`_execute_retriever_step`). -/
inductive RetrRes where
  | searchR (r : SearchRes) : RetrRes
  | docsR (r : DocListRes) : RetrRes
  | unknownR (error : String) : RetrRes

/-- `result.get("success")` on a retriever-step result. -/
def RetrRes.successFlag : RetrRes → Bool
  | .searchR r => r.success
  | .docsR r => r.success
  | .unknownR _ => false

/-- `result.get("results")`: absent (hence falsy/empty) except on search
results. -/
def RetrRes.resultsOf : RetrRes → List SearchItem
  | .searchR r => r.results
  | .docsR _ => []
  | .unknownR _ => []

/-- The result dict recorded for one executed step. -/
inductive CallRes where
  | retr (r : RetrRes) : CallRes
  | exec (r : ExecResult) : CallRes
  | unknownAgent (error : String) : CallRes

/-- `result.get("success", False)` (main_chroma.py line 143). -/
def CallRes.successFlag : CallRes → Bool
  | .retr r => r.successFlag
  | .exec r => r.success
  | .unknownAgent _ => false

/-- Whether the recorded result carries an error marker: an `error` key in
the result dict itself or inside its capability payload. -/
def CallRes.hasErrorMarker : CallRes → Bool
  | .retr (.searchR r) => r.error.isSome
  | .retr (.docsR r) => r.error.isSome
  | .retr (.unknownR _) => true
  | .exec r => r.error.isSome || (match r.result with
    | some pl => pl.errorOf.isSome
    | none => false)
  | .unknownAgent _ => true

/-- One StepResult dict (main_chroma.py lines 137-144). -/
structure StepResult where
  step_number : Int
  agent : String
  action : String
  description : String
  result : CallRes
  success : Bool

/-- Build the StepResult recorded for step `s` with result `r`. -/
def stepResultOf (s : Step) (r : CallRes) : StepResult :=
  { step_number := s.step_number, agent := s.agent, action := s.action
    description := s.description, result := r, success := r.successFlag }

/-! ## ConversationContext (backend/context/context_manager.py) -/

/-- The input/output snapshots of one ContextEntry: the planning log
(input `{user_query}`, output the plan result) or a step log (input
`{step, parameters}` after rewriting, output the step's result dict). -/
inductive LogData where
  | planningLog (user_query : String) (output : PlanOutcome) : LogData
  | stepLog (step : Step) (parameters : Params) (output : CallRes) : LogData

/-- One ContextEntry (timestamp and the always-None metadata omitted). -/
structure Entry where
  agent : String
  action : String
  data : LogData

/-- ConversationContext (context_manager.py lines 18-40). -/
structure ConversationContext where
  session_id : String
  user_query : String
  entries : List Entry
  current_step : Nat
  status : String

/-- ContextManager.create_context: a fresh active context. -/
def createContext (session_id user_query : String) : ConversationContext :=
  { session_id := session_id, user_query := user_query, entries := []
    current_step := 0, status := "active" }

/-- ConversationContext.add_entry: append one entry, increment the step
counter (context_manager.py lines 27-40); `ContextManager.log_agent_action`
delegates here on the active context. -/
def ConversationContext.add_entry (c : ConversationContext)
    (agent action : String) (d : LogData) : ConversationContext :=
  { c with entries := c.entries ++ [{ agent := agent, action := action, data := d }]
           current_step := c.current_step + 1 }

/-- Contexts reachable by the operations the run applies to a context:
creation, add_entry, and status assignment. -/
inductive CtxReachable : ConversationContext → Prop
  | created (sid q : String) : CtxReachable (createContext sid q)
  | extended (c : ConversationContext) (a act : String) (d : LogData) :
      CtxReachable c → CtxReachable (c.add_entry a act d)
  | statusSet (c : ConversationContext) (st : String) :
      CtxReachable c → CtxReachable { c with status := st }

/-! ## The pipeline driver (WorkspaceGPT.process_query) -/

/-- The external collaborators one run depends on: the fresh session uuid,
the planner outcome for the user query, the LLM, and the vector store. -/
structure Env where
  uuid : String
  planner : PlanOutcome
  llm : LlmFn
  store : StoreFn
  stats : Except String StatsInfo
  documents : List (Option String)

/-- WorkspaceGPT._execute_retriever_step (main_chroma.py lines 185-205). -/
def execute_retriever_step (env : Env) (action : String) (p : Params) : RetrRes :=
  let query := (pget p "query").getD (.str "")
  let k := (pget p "k").getD (.num 4)
  if action = "search" then
    .searchR (RetrieverAgent.search env.store query k defaultScoreThreshold)
  else if action = "search_by_document" then
    .searchR (RetrieverAgent.search_by_document env.store query
      ((pget p "source_file").getD (.str "")) k)
  else if action = "get_documents" then
    .docsR (RetrieverAgent.get_document_list env.stats env.documents)
  else
    .unknownR ("Unknown retriever action: " ++ action)

/-- Render one buffered item: `"From <source>: <content>"`; a non-dict
item or a missing key raises. -/
def renderRetrievedItem (v : JVal) : Except String String :=
  match v with
  | .obj fields =>
    match pget fields "source" with
    | none => .error "KeyError: source"
    | some s =>
      match pget fields "content" with
      | none => .error "KeyError: content"
      | some c => .ok ("From " ++ pvStr s ++ ": " ++ pvStr c)
  | _ => .error "TypeError: item is not a dict"

/-- Render every buffered item in order, failing at the first bad one. -/
def renderRetrievedList : List JVal → Except String (List String)
  | [] => .ok []
  | v :: rest => do
    let s ← renderRetrievedItem v
    let srest ← renderRetrievedList rest
    .ok (s :: srest)

/-- The `"\n\n".join(...)` over a retrieved_content value (main_chroma.py
lines 213-216). Iterating a non-list raises, except that an empty string
or empty dict iterates zero times. -/
def flattenRetrieved : JVal → Except String String
  | .arr items => do
    let parts ← renderRetrievedList items
    .ok (String.intercalate "\n\n" parts)
  | .str s => if s = "" then .ok "" else .error "TypeError: string indices"
  | .obj [] => .ok ""
  | .obj (_ :: _) => .error "TypeError: string indices"
  | _ => .error "TypeError: not iterable"

/-- The three actions whose parameters get the flattened content
(main_chroma.py line 211). -/
def contentActions : List String := ["summarize", "analyze_content", "create_checklist"]

/-- The content-flattening stage of `_execute_executor_step`
(main_chroma.py lines 211-219): when the parameters carry
retrieved_content and the action is a content action, assign the
flattened text into `content` and delete `retrieved_content`. -/
def rcFlattenStage (action : String) (p : Params) : Except String Params :=
  if pcontains p "retrieved_content" ∧ action ∈ contentActions then
    match flattenRetrieved ((pget p "retrieved_content").getD .null) with
    | .ok combined => .ok (perase (pset p "content" (.str combined)) "retrieved_content")
    | .error e => .error e
  else .ok p

/-- Lines 224-226: rename task_type to title when title is absent
(assign the task_type value under title, delete task_type). -/
def renameTaskType (p : Params) : Params :=
  if pcontains p "task_type" ∧ ¬ pcontains p "title" then
    perase (pset p "title" ((pget p "task_type").getD .null)) "task_type"
  else p

/-- Lines 229-230 and 235-236: assign the placeholder title when no title
is present. -/
def defaultTitle (t : String) (p : Params) : Params :=
  if ¬ pcontains p "title" then pset p "title" (.str t) else p

/-- The create_task block (lines 222-230). -/
def taskFix (action : String) (p : Params) : Params :=
  if action = "create_task" then defaultTitle "Generated Task" (renameTaskType p)
  else p

/-- The create_checklist block (lines 233-236). -/
def checklistFix (action : String) (p : Params) : Params :=
  if action = "create_checklist" then defaultTitle "Generated Checklist" p
  else p

/-- The title-fixing stage of `_execute_executor_step` (lines 221-236):
the create_task block, then the create_checklist block. -/
def titleStage (action : String) (p : Params) : Params :=
  checklistFix action (taskFix action p)

/-- The full parameter rewriting of `_execute_executor_step`, before
dispatch to `execute`. -/
def execRewrite (action : String) (p : Params) : Except String Params :=
  match rcFlattenStage action p with
  | .ok p1 => .ok (titleStage action p1)
  | .error e => .error e

/-- WorkspaceGPT._execute_executor_step (main_chroma.py lines 207-238):
rewrite the parameters in place, then dispatch to `ExecutorAgent.execute`
with the rewritten dict (the same object the driver later logs). -/
def execute_executor_step (llm : LlmFn) (action : String) (p : Params) :
    Except String (Params × ExecResult) :=
  match execRewrite action p with
  | .ok p2 => .ok (p2, ExecutorAgent.execute llm action p2)
  | .error e => .error e

/-- The driver's buffer injection for Executor steps (line 119). -/
def injectBuffer (p : Params) (buf : List RItem) : Params :=
  pset p "retrieved_content" (buffVal buf)

/-- One iteration of the step loop (main_chroma.py lines 95-127): route by
agent tag, inject the buffer for Executor steps, extend the buffer from
successful search results. Returns result, the parameters dict as logged,
and the new buffer; an uncaught exception is `Except.error`. -/
def runStep (env : Env) (s : Step) (buf : List RItem) :
    Except String (CallRes × Params × List RItem) :=
  if s.agent = "Retriever" then
    let r := execute_retriever_step env s.action s.parameters
    let buf2 :=
      if r.successFlag ∧ ¬ r.resultsOf.isEmpty then
        buf ++ r.resultsOf.map (fun x => { source := x.source_file, content := x.content })
      else buf
    .ok (.retr r, s.parameters, buf2)
  else if s.agent = "Executor" then
    let p1 := if ¬ buf.isEmpty then injectBuffer s.parameters buf else s.parameters
    match execute_executor_step env.llm s.action p1 with
    | .ok (p2, r) => .ok (.exec r, p2, buf)
    | .error e => .error e
  else
    .ok (.unknownAgent ("Unknown agent: " ++ s.agent), s.parameters, buf)

/-- Outcome of the whole step loop: completed with the accumulated
StepResults, buffer and context, or aborted by an uncaught exception
(the context keeps the entries logged so far). -/
inductive LoopOut where
  | done (results : List StepResult) (buffer : List RItem)
      (ctx : ConversationContext) : LoopOut
  | aborted (msg : String) (ctx : ConversationContext) : LoopOut

/-- The step loop: execute, log one entry per step, record one StepResult
per step, never stopping at a failed step. -/
def runSteps (env : Env) :
    List Step → List RItem → ConversationContext → List StepResult → LoopOut
  | [], buf, ctx, acc => .done acc buf ctx
  | s :: rest, buf, ctx, acc =>
    match runStep env s buf with
    | .error e => .aborted e ctx
    | .ok (r, p2, buf2) =>
      let ctx2 := ctx.add_entry s.agent s.action (.stepLog s p2 r)
      runSteps env rest buf2 ctx2 (acc ++ [stepResultOf s r])

/-! ## Final summary (WorkspaceGPT._generate_final_summary) -/

/-- The final summary dict (main_chroma.py lines 240-281). -/
structure FinalSummary where
  user_query : String
  plan_analysis : JVal
  expected_outcome : JVal
  total_steps : Nat
  successful_steps : Nat
  failed_steps : Nat
  retrieved_documents : Nat
  key_achievements : List String

/-- Count of distinct strings, first occurrences kept (`len(set(...))`). -/
def distinctCount (l : List String) : Nat :=
  (l.foldl (fun acc s => if acc.contains s then acc else acc ++ [s]) []).length

/-- `result.get("total_results", 0)` rendered into the achievement text. -/
def totalResultsStr : CallRes → String
  | .retr (.searchR r) => toString r.total_results
  | _ => "0"

/-- `result.get("result", {}).get("task", {}).get("title", "Unknown")`. -/
def taskTitleStr (er : ExecResult) : String :=
  match er.result with
  | some (.task t _ _) => pvStr t
  | _ => "Unknown"

/-- `result.get("result", {}).get("report", {}).get("title", "Unknown")`. -/
def reportTitleStr (er : ExecResult) : String :=
  match er.result with
  | some (.report t _) => pvStr t
  | _ => "Unknown"

/-- `result.get("result", {}).get("checklist", {}).get("total_items", 0)`. -/
def checklistItemCount (er : ExecResult) : Nat :=
  match er.result with
  | some (.checklist _ items _) => items.length
  | _ => 0

/-- The per-step achievement template (every result dict is non-empty, so
`step["result"]` is always truthy). Unmapped actions contribute nothing. -/
def achievementOf (sr : StepResult) : Option String :=
  if sr.success then
    if sr.agent = "Retriever" then
      some ("Retrieved " ++ totalResultsStr sr.result
        ++ " relevant documents for " ++ pyQuote ++ sr.description ++ pyQuote)
    else if sr.agent = "Executor" then
      match sr.result with
      | .exec er =>
        if sr.action = "create_task" then some ("Created task: " ++ taskTitleStr er)
        else if sr.action = "summarize" then some "Generated content summary"
        else if sr.action = "generate_report" then
          some ("Generated report: " ++ reportTitleStr er)
        else if sr.action = "create_checklist" then
          some ("Created checklist with " ++ toString (checklistItemCount er) ++ " items")
        else none
      | _ => none
    else none
  else none

/-- WorkspaceGPT._generate_final_summary. -/
def generate_final_summary (q : String) (plan : Plan)
    (results : List StepResult) (buf : List RItem) : FinalSummary :=
  { user_query := q
    plan_analysis := plan.analysis
    expected_outcome := plan.expected_outcome
    total_steps := results.length
    successful_steps := (results.filter (fun s => s.success)).length
    failed_steps := (results.filter (fun s => ¬ s.success)).length
    retrieved_documents := distinctCount (buf.map (fun it => it.source))
    key_achievements := results.filterMap achievementOf }

/-! ## WorkspaceGPT.process_query (main_chroma.py lines 53-183) -/

/-- The returned result dict plus the final ConversationContext state.
Keys absent from a Python failure dict are `none`/`[]` here; the
context-summary echo is omitted (derived from `ctx`). -/
structure RunResult where
  session_id : String
  success : Bool
  error : Option String
  user_query : String
  plan : Option Plan
  step_results : List StepResult
  retrieved_content : List RItem
  final_summary : Option FinalSummary
  ctx : ConversationContext

/-- The context right after the planning phase was logged (lines 57-73):
one entry, recorded whether or not planning succeeded. -/
def planningCtx (env : Env) (q : String) : ConversationContext :=
  (createContext ("session_" ++ env.uuid) q).add_entry
    "Planner" "create_plan" (.planningLog q env.planner)

/-- WorkspaceGPT.process_query: plan, check, execute every step, summarize;
planning failure and any uncaught step exception end the run with an
error-status context and a failure dict. -/
def process_query (env : Env) (q : String) : RunResult :=
  let sid := "session_" ++ env.uuid
  match env.planner with
  | .failed _ =>
    { session_id := sid, success := false, error := some "Planning failed"
      user_query := q, plan := none, step_results := []
      retrieved_content := [], final_summary := none
      ctx := { planningCtx env q with status := "error" } }
  | .ok plan =>
    match runSteps env plan.steps [] (planningCtx env q) [] with
    | .aborted e ctx2 =>
      { session_id := sid, success := false, error := some e
        user_query := q, plan := none, step_results := []
        retrieved_content := [], final_summary := none
        ctx := { ctx2 with status := "error" } }
    | .done results buffer ctx2 =>
      let failed := results.filter (fun s => ¬ s.success)
      let fs := generate_final_summary q plan results buffer
      let st := if failed.isEmpty then "completed" else "completed_with_errors"
      { session_id := sid, success := true, error := none
        user_query := q, plan := some plan, step_results := results
        retrieved_content := buffer, final_summary := some fs
        ctx := { ctx2 with status := st } }

/-- Whether the run hit the top-level exception handler. -/
def runAborted (env : Env) (q : String) : Bool :=
  match env.planner with
  | .failed _ => false
  | .ok plan =>
    match runSteps env plan.steps [] (planningCtx env q) [] with
    | .aborted _ _ => true
    | .done _ _ _ => false

/-! ## Claim-support definitions -/

/-- The identifying echo of a StepResult: step_number, agent, action,
description. -/
def stepSig (sr : StepResult) : Int × String × String × String :=
  (sr.step_number, sr.agent, sr.action, sr.description)

/-- The identifying fields of a plan step. -/
def planStepSig (s : Step) : Int × String × String × String :=
  (s.step_number, s.agent, s.action, s.description)

/-- The parameters dict `_execute_executor_step` hands to the capability
dispatcher (empty when the rewrite raised). -/
def dispatchedParams (llm : LlmFn) (action : String) (p : Params) : Params :=
  match execute_executor_step llm action p with
  | .ok (p2, _) => p2
  | .error _ => []

/-- Whether `_execute_executor_step` completes without raising. -/
def dispatchOk (llm : LlmFn) (action : String) (p : Params) : Bool :=
  match execute_executor_step llm action p with
  | .ok _ => true
  | .error _ => false

/-- The flattened buffer text the spec describes: every buffered item as
`"From <source>: <content>"`, joined by blank lines, in buffer order. -/
def combineBuffer (buf : List RItem) : String :=
  String.intercalate "\n\n" (buf.map (fun it => "From " ++ it.source ++ ": " ++ it.content))

/-- The parameters snapshot recorded in a logged step entry. -/
def entryParams (e : Entry) : Params :=
  match e.data with
  | .stepLog _ p _ => p
  | .planningLog _ _ => []

/-- Placeholder entry for positional access. -/
def dummyEntry : Entry :=
  { agent := "", action := "", data := .planningLog "" (.failed "") }

/-- Placeholder step result for positional access. -/
def dummyStepResult : StepResult :=
  { step_number := 0, agent := "", action := "", description := ""
    result := .unknownAgent "", success := false }

/-- A trivially healthy stats result for concrete environments. -/
def statsOkEmpty : Except String StatsInfo :=
  .ok { status := "initialized", source_files := [] }

/-- C1 counterexample plan: validation accepts it (all four step fields
present, agent in the two-member set — parameters are not inspected), but
its summarize step carries a plan-supplied retrieved_content of a
non-list type. -/
def planAbort : Plan :=
  { analysis := .str "a", expected_outcome := .str "o"
    steps := [{ step_number := 1, agent := "Executor", action := "summarize"
                description := "summarize docs"
                parameters := [("retrieved_content", .num 5)] }] }

/-- C1 counterexample environment. -/
def envAbort : Env :=
  { uuid := "u1", planner := .ok planAbort, llm := fun _ => .ok "text"
    store := fun _ _ _ => .ok [], stats := statsOkEmpty, documents := [] }

/-- C1 witness plan: one create_task step that completes. -/
def planRunW : Plan :=
  { analysis := .str "a", expected_outcome := .str "o"
    steps := [{ step_number := 1, agent := "Executor", action := "create_task"
                description := "make a task"
                parameters := [("title", .str "T1")] }] }

/-- C1 witness environment. -/
def envRunW : Env :=
  { uuid := "u2", planner := .ok planRunW, llm := fun _ => .ok "text"
    store := fun _ _ _ => .ok [], stats := statsOkEmpty, documents := [] }

/-- C2 witness plan object: the steps field is missing entirely. -/
def fieldsNoSteps : List (String × JVal) :=
  [("analysis", .str "a"), ("expected_outcome", .str "o")]

/-- C2 witness environment: the driver consumes exactly the planner
outcome produced from the invalid parsed plan. -/
def envNoSteps : Env :=
  { uuid := "u3", planner := planOutcomeOf (planFromParsed "raw" (.obj fieldsNoSteps))
    llm := fun _ => .ok "text", store := fun _ _ _ => .ok []
    stats := statsOkEmpty, documents := [] }

/-- C3 witness environment: the planner returned a failure result. -/
def envPlanFail : Env :=
  { uuid := "u4", planner := .failed "Could not parse response as JSON"
    llm := fun _ => .ok "text", store := fun _ _ _ => .ok []
    stats := statsOkEmpty, documents := [] }

/-- C4 scenario chunks: one from each of two documents. -/
def chunkDoc1 : RawChunk :=
  { content := "alpha facts"
    metadata := { source_file := some "doc1.pdf", page := some 1, chunk_id := some 1 }
    similarity_score := 9000 }

/-- Second scenario chunk. -/
def chunkDoc2 : RawChunk :=
  { content := "beta facts"
    metadata := { source_file := some "doc2.pdf", page := some 1, chunk_id := some 2 }
    similarity_score := 8000 }

/-- C4 scenario plan: a search step followed by a summarize step. -/
def planSearchSumm : Plan :=
  { analysis := .str "a", expected_outcome := .str "o"
    steps := [{ step_number := 1, agent := "Retriever", action := "search"
                description := "find docs", parameters := [("query", .str "x")] },
              { step_number := 2, agent := "Executor", action := "summarize"
                description := "summarize findings", parameters := [] }] }

/-- C4 scenario environment: the search returns chunks from doc1.pdf and
doc2.pdf. -/
def envSearchSumm : Env :=
  { uuid := "u5", planner := .ok planSearchSumm, llm := fun _ => .ok "a summary"
    store := fun _ _ _ => .ok [chunkDoc1, chunkDoc2]
    stats := statsOkEmpty, documents := [] }

/-- The effective content parameter of the summarize step's logged input
in the C4 scenario run (entry 0 is planning, 1 the search, 2 the
summarize). -/
def summContent : String :=
  pvStr ((pget (entryParams ((process_query envSearchSumm "q").ctx.entries.getD 2 dummyEntry))
    "content").getD .null)

/-- C5 witness plan: a retriever step and an executor step. -/
def planTwoSteps : Plan :=
  { analysis := .str "a", expected_outcome := .str "o"
    steps := [{ step_number := 1, agent := "Retriever", action := "get_documents"
                description := "list docs", parameters := [] },
              { step_number := 2, agent := "Executor", action := "create_task"
                description := "make a task"
                parameters := [("title", .str "T2")] }] }

/-- C5 witness environment. -/
def envTwoSteps : Env :=
  { uuid := "u6", planner := .ok planTwoSteps, llm := fun _ => .ok "text"
    store := fun _ _ _ => .ok [], stats := statsOkEmpty, documents := [] }

/-- C6 counterexample plan: one summarize step with a content string. -/
def planSummFail : Plan :=
  { analysis := .str "a", expected_outcome := .str "o"
    steps := [{ step_number := 1, agent := "Executor", action := "summarize"
                description := "summarize stuff"
                parameters := [("content", .str "hello world")] }] }

/-- C6 counterexample environment: the LLM call raises. -/
def envSummFail : Env :=
  { uuid := "u7", planner := .ok planSummFail, llm := fun _ => .error "boom"
    store := fun _ _ _ => .ok [], stats := statsOkEmpty, documents := [] }

/-- The single step result of the C6 counterexample run. -/
def summFailStep : StepResult :=
  (process_query envSummFail "q").step_results.getD 0 dummyStepResult

/-- C6 witness plan: one summarize step with no content parameter, so the
capability call raises and the step fails while the run completes. -/
def planStepRaise : Plan :=
  { analysis := .str "a", expected_outcome := .str "o"
    steps := [{ step_number := 1, agent := "Executor", action := "summarize"
                description := "summarize nothing", parameters := [] }] }

/-- C6 witness environment. -/
def envStepRaise : Env :=
  { uuid := "u8", planner := .ok planStepRaise, llm := fun _ => .ok "text"
    store := fun _ _ _ => .ok [], stats := statsOkEmpty, documents := [] }

/-- C8 scenario chunk returned by both queries (the overlap). -/
def chunkOverlap : RawChunk :=
  { content := "shared chunk"
    metadata := { source_file := some "doc1.pdf", page := some 3, chunk_id := some 7 }
    similarity_score := 5000 }

/-- C8 scenario chunk unique to query a, highest score. -/
def chunkOnlyA : RawChunk :=
  { content := "a chunk"
    metadata := { source_file := some "doc1.pdf", page := some 1, chunk_id := some 1 }
    similarity_score := 9000 }

/-- C8 scenario chunk unique to query b, middling score. -/
def chunkOnlyB : RawChunk :=
  { content := "b chunk"
    metadata := { source_file := some "doc2.pdf", page := some 2, chunk_id := some 2 }
    similarity_score := 7000 }

/-- C8 scenario store: query a returns its own chunk then the overlap,
query b returns the overlap first then its own chunk. -/
def storeOverlap : StoreFn := fun q _ _ =>
  match q with
  | .str "a" => .ok [chunkOnlyA, chunkOverlap]
  | .str "b" => .ok [chunkOverlap, chunkOnlyB]
  | _ => .ok []

/-- C9 witness step: a create_task step (outside the content actions). -/
def stepTaskFwd : Step :=
  { step_number := 3, agent := "Executor", action := "create_task"
    description := "task with buffer", parameters := [("title", .str "T3")] }

/-- C9 witness buffer. -/
def bufOne : List RItem := [{ source := "doc1.pdf", content := "alpha facts" }]

/-- C9 witness environment. -/
def envFwd : Env :=
  { uuid := "u9", planner := .failed "unused", llm := fun _ => .ok "text"
    store := fun _ _ _ => .ok [], stats := statsOkEmpty, documents := [] }

/-! ## Dictionary lemmas -/

/-- Updating a key makes it present with the new value. -/
theorem pget_pset_self (p : Params) (k : String) (v : JVal) :
    pget (pset p k v) k = some v := by
  induction p with
  | nil => simp [pget, pset]
  | cons kv rest ih =>
    obtain ⟨k', v'⟩ := kv
    by_cases h : k' = k
    · simp [pget, pset, h]
    · simp [pget, pset, h, ih]

/-- Updating one key leaves the others unchanged. -/
theorem pget_pset_ne (p : Params) (k : String) (v : JVal) (kq : String)
    (h : kq ≠ k) : pget (pset p k v) kq = pget p kq := by
  have hk : ¬ k = kq := fun hh => h hh.symm
  induction p with
  | nil => simp [pget, pset, hk]
  | cons kv rest ih =>
    obtain ⟨k', v'⟩ := kv
    by_cases h1 : k' = k
    · subst h1
      simp [pget, pset, hk]
    · simp [pget, pset, h1, ih]

/-- Removing a key removes it. -/
theorem pget_perase_self (p : Params) (k : String) :
    pget (perase p k) k = none := by
  induction p with
  | nil => simp [pget, perase]
  | cons kv rest ih =>
    obtain ⟨k', v'⟩ := kv
    by_cases h : k' = k
    · simp [perase, h, ih]
    · simp [pget, perase, h, ih]

/-- Removing one key leaves the others unchanged. -/
theorem pget_perase_ne (p : Params) (k kq : String) (h : kq ≠ k) :
    pget (perase p k) kq = pget p kq := by
  have hk : ¬ k = kq := fun hh => h hh.symm
  induction p with
  | nil => simp [pget, perase]
  | cons kv rest ih =>
    obtain ⟨k', v'⟩ := kv
    by_cases h1 : k' = k
    · simp [pget, perase, h1, hk, ih]
    · simp [pget, perase, h1, ih]

/-- `pcontains` after an update of the same key. -/
theorem pcontains_pset_self (p : Params) (k : String) (v : JVal) :
    pcontains (pset p k v) k = true := by
  simp [pcontains, pget_pset_self]

/-- `pcontains` after an update of a different key. -/
theorem pcontains_pset_ne (p : Params) (k : String) (v : JVal) (kq : String)
    (h : kq ≠ k) : pcontains (pset p k v) kq = pcontains p kq := by
  simp [pcontains, pget_pset_ne p k v kq h]

/-- `pcontains` after removing the same key. -/
theorem pcontains_perase_self (p : Params) (k : String) :
    pcontains (perase p k) k = false := by
  simp [pcontains, pget_perase_self]

/-- `pcontains` after removing a different key. -/
theorem pcontains_perase_ne (p : Params) (k kq : String) (h : kq ≠ k) :
    pcontains (perase p k) kq = pcontains p kq := by
  simp [pcontains, pget_perase_ne p k kq h]

/-! ## Flattening the injected buffer -/

/-- Rendering one injected buffer item never raises. -/
theorem renderRetrievedItem_buff (it : RItem) :
    renderRetrievedItem (.obj [("source", .str it.source), ("content", .str it.content)]) =
      .ok ("From " ++ it.source ++ ": " ++ it.content) := rfl

/-- Rendering the whole injected buffer never raises. -/
theorem renderRetrievedList_buff (buf : List RItem) :
    renderRetrievedList (buf.map
        (fun it => JVal.obj [("source", .str it.source), ("content", .str it.content)])) =
      .ok (buf.map (fun it => "From " ++ it.source ++ ": " ++ it.content)) := by
  induction buf with
  | nil => rfl
  | cons it rest ih =>
    simp only [List.map_cons, renderRetrievedList, renderRetrievedItem_buff, ih]
    rfl

/-- Flattening the driver-injected buffer yields exactly the blank-line
join of the rendered items, in buffer order. -/
theorem flattenRetrieved_buffVal (buf : List RItem) :
    flattenRetrieved (buffVal buf) = .ok (combineBuffer buf) := by
  simp only [flattenRetrieved, buffVal, renderRetrievedList_buff, combineBuffer]
  rfl

/-! ## Step-loop lemmas -/

/-- Filtering out the successes is empty exactly when all steps
succeeded. -/
theorem filter_failed_isEmpty (l : List StepResult) :
    (l.filter (fun s => ¬ s.success)).isEmpty = l.all (fun s => s.success) := by
  induction l with
  | nil => rfl
  | cons s rest ih =>
    by_cases h : s.success
    · simpa [List.filter_cons, h] using ih
    · simp [List.filter_cons, h]

/-- A completed step loop extends the step-result accumulator and the
context entries with exactly one record per step, echoing the steps in
order; every recorded success flag is the result's success flag, and the
context status is untouched. -/
theorem runSteps_done (env : Env) (steps : List Step) :
    ∀ (buf : List RItem) (ctx : ConversationContext) (acc : List StepResult)
      (res : List StepResult) (buf' : List RItem) (ctx' : ConversationContext),
      runSteps env steps buf ctx acc = LoopOut.done res buf' ctx' →
      ∃ tail tailE,
        res = acc ++ tail ∧
        tail.map stepSig = steps.map planStepSig ∧
        tail.all (fun sr => sr.success == CallRes.successFlag sr.result) = true ∧
        ctx'.entries = ctx.entries ++ tailE ∧
        tailE.map (fun e => (e.agent, e.action)) =
          steps.map (fun s => (s.agent, s.action)) ∧
        ctx'.status = ctx.status := by
  induction steps with
  | nil =>
    intro buf ctx acc res buf' ctx' h
    refine ⟨[], [], ?_, rfl, rfl, ?_, rfl, ?_⟩
    · cases h
      simp
    · cases h
      simp
    · cases h
      rfl
  | cons s rest ih =>
    intro buf ctx acc res buf' ctx' h
    simp only [runSteps] at h
    cases hrs : runStep env s buf with
    | error e => rw [hrs] at h; cases h
    | ok out =>
      obtain ⟨r, p2, buf2⟩ := out
      rw [hrs] at h
      obtain ⟨tail, tailE, h1, h2, h3, h4, h5, h6⟩ := ih buf2
        (ctx.add_entry s.agent s.action (.stepLog s p2 r)) (acc ++ [stepResultOf s r])
        res buf' ctx' h
      refine ⟨stepResultOf s r :: tail,
        Entry.mk s.agent s.action (.stepLog s p2 r) :: tailE, ?_, ?_, ?_, ?_, ?_, ?_⟩
      · simpa using h1
      · simp [h2, stepResultOf, stepSig, planStepSig]
      · simp [h3, stepResultOf]
      · simpa [ConversationContext.add_entry] using h4
      · simp [h5]
      · simpa [ConversationContext.add_entry] using h6

/-! ## Deduplication and re-sorting lemmas -/

/-- Inserting permutes with consing. -/
theorem insertDesc_perm (x : SearchItem) (l : List SearchItem) :
    (insertDesc x l).Perm (x :: l) := by
  induction l with
  | nil => simp [insertDesc]
  | cons y ys ih =>
    by_cases h : x.similarity_score < y.similarity_score
    · simp only [insertDesc, if_pos h]
      exact (ih.cons y).trans (List.Perm.swap x y ys)
    · simp [insertDesc, h]

/-- The sort permutes its input. -/
theorem sortDescByScore_perm (l : List SearchItem) :
    (sortDescByScore l).Perm l := by
  induction l with
  | nil => simp [sortDescByScore]
  | cons x xs ih =>
    exact (insertDesc_perm x (sortDescByScore xs)).trans (ih.cons x)

/-- Inserting preserves descending pairwise order. -/
theorem insertDesc_pairwise (x : SearchItem) (l : List SearchItem)
    (h : l.Pairwise (fun a b => b.similarity_score ≤ a.similarity_score)) :
    (insertDesc x l).Pairwise (fun a b => b.similarity_score ≤ a.similarity_score) := by
  induction l with
  | nil => simp [insertDesc]
  | cons y ys ih =>
    rcases List.pairwise_cons.mp h with ⟨hy, hys⟩
    by_cases hc : x.similarity_score < y.similarity_score
    · simp only [insertDesc, if_pos hc]
      refine List.pairwise_cons.mpr ⟨?_, ih hys⟩
      intro z hz
      have hz2 := (insertDesc_perm x ys).mem_iff.mp hz
      rcases List.mem_cons.mp hz2 with rfl | hzys
      · exact le_of_lt hc
      · exact hy z hzys
    · simp only [insertDesc, if_neg hc]
      refine List.pairwise_cons.mpr ⟨?_, h⟩
      intro z hz
      have hxy : y.similarity_score ≤ x.similarity_score := not_lt.mp hc
      rcases List.mem_cons.mp hz with rfl | hzys
      · exact hxy
      · exact le_trans (hy z hzys) hxy

/-- The sorted list is pairwise descending by similarity score. -/
theorem sortDescByScore_pairwise (l : List SearchItem) :
    (sortDescByScore l).Pairwise (fun a b => b.similarity_score ≤ a.similarity_score) := by
  induction l with
  | nil => simp [sortDescByScore]
  | cons x xs ih => exact insertDesc_pairwise x (sortDescByScore xs) ih

/-- Re-ranking assigns the contiguous rank sequence. -/
theorem rerankFrom_map_rank (l : List SearchItem) :
    ∀ n, (rerankFrom n l).map (fun x => x.rank) = ranksFrom n l.length := by
  induction l with
  | nil => intro n; rfl
  | cons x xs ih =>
    intro n
    simp [rerankFrom, ranksFrom, ih (n + 1)]

/-- Re-ranking keeps the chunk ids, in order. -/
theorem rerankFrom_map_chunk_id (l : List SearchItem) :
    ∀ n, (rerankFrom n l).map (fun x => x.chunk_id) = l.map (fun x => x.chunk_id) := by
  induction l with
  | nil => intro n; rfl
  | cons x xs ih =>
    intro n
    simp [rerankFrom, ih (n + 1)]

/-- Any re-ranked element is some original element up to its rank. -/
theorem mem_rerankFrom (l : List SearchItem) :
    ∀ n y, y ∈ rerankFrom n l → ∃ y' ∈ l, unrank y = unrank y' := by
  induction l with
  | nil => intro n y h; cases h
  | cons x xs ih =>
    intro n y h
    rcases List.mem_cons.mp h with rfl | h2
    · exact ⟨x, List.mem_cons_self x xs, rfl⟩
    · obtain ⟨y', hy', he⟩ := ih (n + 1) y h2
      exact ⟨y', List.mem_cons_of_mem x hy', he⟩

/-- Re-ranking preserves descending pairwise order (the order only reads
the untouched scores). -/
theorem rerankFrom_pairwise (l : List SearchItem)
    (h : l.Pairwise (fun a b => b.similarity_score ≤ a.similarity_score)) :
    ∀ n, (rerankFrom n l).Pairwise
      (fun a b => b.similarity_score ≤ a.similarity_score) := by
  induction l with
  | nil => intro n; simp [rerankFrom]
  | cons x xs ih =>
    intro n
    rcases List.pairwise_cons.mp h with ⟨hx, hxs⟩
    refine List.pairwise_cons.mpr ⟨?_, ih hxs (n + 1)⟩
    intro z hz
    obtain ⟨z', hz', he⟩ := mem_rerankFrom xs (n + 1) z hz
    have hsc : z.similarity_score = z'.similarity_score := by
      have h0 := congrArg SearchItem.similarity_score he
      simpa [unrank] using h0
    simpa [hsc] using hx z' hz'

/-- Every element kept by the dedup loop is outside `seen` and is the
first pool element carrying its chunk id. -/
theorem dedup_mem_first (l : List SearchItem) :
    ∀ seen y, y ∈ dedupById seen l →
      y.chunk_id ∉ seen ∧ firstWithId l y.chunk_id = some y := by
  induction l with
  | nil => intro seen y h; cases h
  | cons x xs ih =>
    intro seen y h
    by_cases hx : seen.contains x.chunk_id
    · rw [dedupById, if_pos hx] at h
      obtain ⟨h1, h2⟩ := ih seen y h
      have hxseen : x.chunk_id ∈ seen := by
        simpa [List.contains] using hx
      have hne : ¬ (x.chunk_id = y.chunk_id) := fun he => h1 (he ▸ hxseen)
      refine ⟨h1, ?_⟩
      rw [firstWithId, List.find?_cons_of_neg, ← firstWithId]
      · exact h2
      · simpa using hne
    · rw [dedupById, if_neg hx] at h
      rcases List.mem_cons.mp h with rfl | h2
      · refine ⟨by simpa [List.contains] using hx, ?_⟩
        rw [firstWithId, List.find?_cons_of_pos]
        simp
      · obtain ⟨h1, h3⟩ := ih (x.chunk_id :: seen) y h2
        have hyne : ¬ (y.chunk_id = x.chunk_id) := by
          intro he
          exact h1 (by simp [he])
        refine ⟨fun hmem => h1 (List.mem_cons_of_mem _ hmem), ?_⟩
        rw [firstWithId, List.find?_cons_of_neg, ← firstWithId]
        · exact h3
        · simpa using fun he => hyne he.symm

/-- The dedup loop emits each chunk id at most once. -/
theorem dedup_ids_nodup (l : List SearchItem) :
    ∀ seen, ((dedupById seen l).map (fun x => x.chunk_id)).Nodup := by
  induction l with
  | nil => intro seen; simp [dedupById]
  | cons x xs ih =>
    intro seen
    by_cases hx : seen.contains x.chunk_id
    · rw [dedupById, if_pos hx]
      exact ih seen
    · rw [dedupById, if_neg hx]
      refine List.nodup_cons.mpr ⟨?_, ih (x.chunk_id :: seen)⟩
      intro hmem
      obtain ⟨y, hy, hid⟩ := List.mem_map.mp hmem
      obtain ⟨h1, _⟩ := dedup_mem_first xs (x.chunk_id :: seen) y hy
      exact h1 (by simp [hid])

/-- Every pool chunk id survives deduplication. -/
theorem dedup_complete (l : List SearchItem) :
    ∀ seen x, x ∈ l → x.chunk_id ∉ seen →
      ∃ y ∈ dedupById seen l, y.chunk_id = x.chunk_id := by
  induction l with
  | nil => intro seen x h; cases h
  | cons hd xs ih =>
    intro seen x hx hseen
    by_cases hhd : seen.contains hd.chunk_id
    · rw [dedupById, if_pos hhd]
      rcases List.mem_cons.mp hx with rfl | h2
      · exact absurd (by simpa [List.contains] using hhd) hseen
      · exact ih seen x h2 hseen
    · rw [dedupById, if_neg hhd]
      rcases List.mem_cons.mp hx with rfl | h2
      · exact ⟨x, List.mem_cons_self _ _, rfl⟩
      · by_cases hide : x.chunk_id = hd.chunk_id
        · exact ⟨hd, List.mem_cons_self _ _, hide.symm⟩
        · have hnotin : x.chunk_id ∉ hd.chunk_id :: seen := by
            intro hmem
            rcases List.mem_cons.mp hmem with he | hmem2
            · exact hide he
            · exact hseen hmem2
          obtain ⟨y, hy, hid⟩ := ih (hd.chunk_id :: seen) x h2 hnotin
          exact ⟨y, List.mem_cons_of_mem _ hy, hid⟩

/-! ## Claim theorems -/

/-- C10: for every ConversationContext mutated only through creation,
add_entry and status assignment, current_step equals the number of
entries; each add_entry appends exactly one ContextEntry and increments
current_step by exactly one. -/
theorem context_step_invariant (c : ConversationContext) (a act : String)
    (d : LogData) (h : CtxReachable c) :
    c.current_step = c.entries.length ∧
    (c.add_entry a act d).entries = c.entries ++ [Entry.mk a act d] ∧
    (c.add_entry a act d).current_step = c.current_step + 1 := by
  refine ⟨?_, rfl, rfl⟩
  induction h with
  | created sid q => rfl
  | extended c' a' act' d' hr ih => simp [ConversationContext.add_entry, ih]
  | statusSet c' st hr ih => simpa using ih

/-- C10 witness: the invariant and the add_entry effects at a freshly
created context. -/
theorem context_step_invariant_witness :
    CtxReachable (createContext "s" "q") ∧
    ((createContext "s" "q").current_step = (createContext "s" "q").entries.length ∧
     ((createContext "s" "q").add_entry "Planner" "create_plan"
        (LogData.planningLog "q" (PlanOutcome.failed "e"))).entries =
       (createContext "s" "q").entries ++ [Entry.mk "Planner" "create_plan"
         (LogData.planningLog "q" (PlanOutcome.failed "e"))] ∧
     ((createContext "s" "q").add_entry "Planner" "create_plan"
        (LogData.planningLog "q" (PlanOutcome.failed "e"))).current_step =
       (createContext "s" "q").current_step + 1) :=
  ⟨CtxReachable.created "s" "q",
    context_step_invariant (createContext "s" "q") "Planner" "create_plan"
      (LogData.planningLog "q" (PlanOutcome.failed "e")) (CtxReachable.created "s" "q")⟩

/-- C3: when the planner returns a non-success result, the run returns
success false with the planning-failure error, the context status is
error, and zero steps are dispatched: no StepResult and only the single
planning ContextEntry. -/
theorem planning_failure_terminates (env : Env) (q : String) (e : String)
    (h : env.planner = PlanOutcome.failed e) :
    (process_query env q).success = false ∧
    (process_query env q).ctx.status = "error" ∧
    (process_query env q).step_results = [] ∧
    (process_query env q).ctx.entries.length = 1 ∧
    (process_query env q).error = some "Planning failed" := by
  refine ⟨?_, ?_, ?_, ?_, ?_⟩ <;>
    simp [process_query, h, planningCtx, createContext, ConversationContext.add_entry]

/-- C3 witness: a planner parse failure at a concrete environment. -/
theorem planning_failure_terminates_witness :
    envPlanFail.planner = PlanOutcome.failed "Could not parse response as JSON" ∧
    ((process_query envPlanFail "q").success = false ∧
     (process_query envPlanFail "q").ctx.status = "error" ∧
     (process_query envPlanFail "q").step_results = [] ∧
     (process_query envPlanFail "q").ctx.entries.length = 1 ∧
     (process_query envPlanFail "q").error = some "Planning failed") :=
  ⟨rfl, planning_failure_terminates envPlanFail "q"
    "Could not parse response as JSON" rfl⟩

/-- C1 counterexample: a run whose planning succeeds (the plan passes
validation, whose checks never inspect parameters) but whose summarize
step carries a plan-supplied non-iterable retrieved_content; the
flattening raises, the top-level handler aborts the loop, and the run
returns success false with status error — refuting that no step aborts
the loop and that the returned success is always true. -/
theorem step_can_abort_run :
    envAbort.planner = PlanOutcome.ok planAbort ∧
    (process_query envAbort "q").success = false ∧
    (process_query envAbort "q").ctx.status = "error" ∧
    (process_query envAbort "q").step_results = [] :=
  ⟨rfl, rfl, rfl, rfl⟩

/-- C1 (amended): when planning succeeds and no step raises an uncaught
exception (the run is not aborted by the top-level handler), every step in
the plan is executed in order, the run reaches done with top-level success
true, and the context status is completed when every StepResult succeeded
and completed_with_errors otherwise. -/
theorem process_query_completes (env : Env) (q : String) (plan : Plan)
    (hp : env.planner = PlanOutcome.ok plan)
    (hna : runAborted env q = false) :
    (process_query env q).success = true ∧
    (process_query env q).step_results.map stepSig = plan.steps.map planStepSig ∧
    (process_query env q).ctx.status =
      (if (process_query env q).step_results.all (fun s => s.success)
       then "completed" else "completed_with_errors") := by
  cases hr : runSteps env plan.steps [] (planningCtx env q) [] with
  | aborted e ctx2 =>
    unfold runAborted at hna
    rw [hp] at hna
    simp only [hr] at hna
    exact absurd hna (by decide)
  | done results buffer ctx2 =>
    obtain ⟨tail, tailE, h1, h2, h3, h4, h5, h6⟩ :=
      runSteps_done env plan.steps [] (planningCtx env q) [] results buffer ctx2 hr
    have hres : results = tail := by simpa using h1
    refine ⟨?_, ?_, ?_⟩
    · simp [process_query, hp, hr]
    · simp only [process_query, hp, hr]
      simpa [hres] using h2
    · simp only [process_query, hp, hr]
      simp [filter_failed_isEmpty]

/-- C1 witness: a one-step plan that completes with status completed. -/
theorem process_query_completes_witness :
    envRunW.planner = PlanOutcome.ok planRunW ∧
    runAborted envRunW "wq" = false ∧
    ((process_query envRunW "wq").success = true ∧
     (process_query envRunW "wq").step_results.map stepSig =
       planRunW.steps.map planStepSig ∧
     (process_query envRunW "wq").ctx.status =
       (if (process_query envRunW "wq").step_results.all (fun s => s.success)
        then "completed" else "completed_with_errors")) :=
  ⟨rfl, rfl, process_query_completes envRunW "wq" planRunW rfl rfl⟩

/-- C5: for every run over a valid plan that reaches the summary phase,
the context holds exactly 1 + number-of-steps entries: the planning entry
plus one entry per step in plan order, regardless of step outcomes. -/
theorem context_entry_count (env : Env) (q : String) (plan : Plan)
    (hp : env.planner = PlanOutcome.ok plan)
    (hna : runAborted env q = false) :
    (process_query env q).ctx.entries.length = 1 + plan.steps.length ∧
    ((process_query env q).ctx.entries.drop 1).map (fun e => (e.agent, e.action)) =
      plan.steps.map (fun s => (s.agent, s.action)) := by
  cases hr : runSteps env plan.steps [] (planningCtx env q) [] with
  | aborted e ctx2 =>
    unfold runAborted at hna
    rw [hp] at hna
    simp only [hr] at hna
    exact absurd hna (by decide)
  | done results buffer ctx2 =>
    obtain ⟨tail, tailE, h1, h2, h3, h4, h5, h6⟩ :=
      runSteps_done env plan.steps [] (planningCtx env q) [] results buffer ctx2 hr
    have hlen : tailE.length = plan.steps.length := by
      have h7 := congrArg List.length h5
      simpa using h7
    constructor
    · simp only [process_query, hp, hr]
      simp [h4, planningCtx, createContext, ConversationContext.add_entry, hlen,
        Nat.add_comm]
    · simp only [process_query, hp, hr]
      simp [h4, planningCtx, createContext, ConversationContext.add_entry, h5]

/-- C5 witness: a two-step plan logs three entries, one per phase. -/
theorem context_entry_count_witness :
    envTwoSteps.planner = PlanOutcome.ok planTwoSteps ∧
    runAborted envTwoSteps "wq" = false ∧
    ((process_query envTwoSteps "wq").ctx.entries.length =
       1 + planTwoSteps.steps.length ∧
     ((process_query envTwoSteps "wq").ctx.entries.drop 1).map
         (fun e => (e.agent, e.action)) =
       planTwoSteps.steps.map (fun s => (s.agent, s.action))) :=
  ⟨rfl, rfl, context_entry_count envTwoSteps "wq" planTwoSteps rfl rfl⟩

/-- A list containing a step that does not validate never validates. -/
theorem validate_steps_not_true (l : List JVal) :
    ∀ s, s ∈ l → validate_step s ≠ Except.ok true →
      validate_steps l ≠ Except.ok true := by
  induction l with
  | nil => intro s hs; cases hs
  | cons x xs ih =>
    intro s hs h hc
    rw [validate_steps] at hc
    cases hvx : validate_step x with
    | error e => rw [hvx] at hc; cases hc
    | ok b =>
      cases b with
      | false => rw [hvx] at hc; cases hc
      | true =>
        rw [hvx] at hc
        rcases List.mem_cons.mp hs with rfl | h2
        · exact h hvx
        · exact ih s h2 h hc

/-- C2: a candidate plan object lacking a steps field, or with an empty
steps list, or containing a step whose agent field is outside
set-of Retriever and Executor, is rejected by validation (the plan result
has success false), and the run built on that planner outcome terminates
before executing any step: no StepResult, only the planning entry. -/
theorem plan_validation_rejects (raw : String) (fields : List (String × JVal))
    (env : Env) (q : String)
    (hbad : pget fields "steps" = none ∨
      pget fields "steps" = some (JVal.arr []) ∨
      (∃ steps s sf a, pget fields "steps" = some (JVal.arr steps) ∧ s ∈ steps ∧
        s = JVal.obj sf ∧ pget sf "agent" = some a ∧
        (∀ nm, a = JVal.str nm → nm ≠ "Retriever" ∧ nm ≠ "Executor")))
    (henv : env.planner = planOutcomeOf (planFromParsed raw (JVal.obj fields))) :
    (planFromParsed raw (JVal.obj fields)).success = false ∧
    (process_query env q).success = false ∧
    (process_query env q).step_results = [] ∧
    (process_query env q).ctx.entries.length = 1 := by
  have hval : validate_plan (JVal.obj fields) ≠ Except.ok true := by
    rcases hbad with h1 | h2 | ⟨steps, s, sf, a, hsteps, hmem, hobj, hagent, hbadnm⟩
    · intro hc
      rw [validate_plan] at hc
      have hns : pcontains fields "steps" = false := by simp [pcontains, h1]
      rw [if_neg] at hc
      · cases hc
      · simp [hns]
    · intro hc
      rw [validate_plan] at hc
      by_cases hall : (["analysis", "steps", "expected_outcome"].all
          (fun k => pcontains fields k) : Bool) = true
      · rw [if_pos hall, h2] at hc
        simp at hc
      · rw [if_neg hall] at hc
        cases hc
    · have hstep : validate_step s ≠ Except.ok true := by
        intro hc
        rw [hobj, validate_step] at hc
        by_cases hall : (["step_number", "agent", "action", "description"].all
            (fun k => pcontains sf k) : Bool) = true
        · rw [if_pos hall, hagent] at hc
          cases a with
          | str nm =>
            obtain ⟨hn1, hn2⟩ := hbadnm nm rfl
            simp [hn1, hn2] at hc
          | null => cases hc
          | bool b => cases hc
          | num n => cases hc
          | arr l => cases hc
          | obj f => cases hc
        · rw [if_neg hall] at hc
          cases hc
      intro hc
      rw [validate_plan] at hc
      by_cases hall : (["analysis", "steps", "expected_outcome"].all
          (fun k => pcontains fields k) : Bool) = true
      · rw [if_pos hall, hsteps] at hc
        have hne : steps.isEmpty = false := by
          cases steps with
          | nil => cases hmem
          | cons a b => rfl
        simp only [hne] at hc
        simp at hc
        exact validate_steps_not_true steps s hmem hstep hc
      · rw [if_neg hall] at hc
        cases hc
  have hsucc : (planFromParsed raw (JVal.obj fields)).success = false := by
    cases hv : validate_plan (JVal.obj fields) with
    | error e => simp [planFromParsed, hv]
    | ok b =>
      cases b with
      | true => exact absurd hv hval
      | false => simp [planFromParsed, hv]
  have hpl : env.planner = PlanOutcome.failed
      ((planFromParsed raw (JVal.obj fields)).error.getD "") := by
    rw [henv, planOutcomeOf, hsucc]
    simp
  refine ⟨hsucc, ?_, ?_, ?_⟩ <;>
    simp [process_query, hpl, planningCtx, createContext, ConversationContext.add_entry]

/-- C2 witness: a plan object with no steps field is rejected and its run
executes no step. -/
theorem plan_validation_rejects_witness :
    pget fieldsNoSteps "steps" = none ∧
    envNoSteps.planner = planOutcomeOf (planFromParsed "raw" (JVal.obj fieldsNoSteps)) ∧
    ((planFromParsed "raw" (JVal.obj fieldsNoSteps)).success = false ∧
     (process_query envNoSteps "q").success = false ∧
     (process_query envNoSteps "q").step_results = [] ∧
     (process_query envNoSteps "q").ctx.entries.length = 1) :=
  ⟨rfl, rfl, plan_validation_rejects "raw" fieldsNoSteps envNoSteps "q" (Or.inl rfl) rfl⟩

/-- C6 counterexample: a summarize step whose LLM call raises; the
capability converts the fault into an error-marked payload, yet the
execute dispatcher wraps it with success True, so the StepResult succeeds,
no failure is counted, and the run ends with status completed — refuting
that a failure-marked capability return yields a failed StepResult. -/
theorem error_marked_result_wrapped_success :
    summFailStep.result.hasErrorMarker = true ∧
    summFailStep.success = true ∧
    (process_query envSummFail "q").ctx.status = "completed" :=
  ⟨rfl, rfl, rfl⟩

/-- C6 (amended): a step whose capability call raises an exception yields
a StepResult with success false carrying the execution-failure error;
every recorded StepResult success equals its result's own success flag
(so a capability result whose success field is false is recorded as a
failure); and failures do not abort the run: a non-aborted run records one
StepResult per step and reaches done with overall success true, its status
determined by whether any step failed. An Executor capability that merely
embeds an error marker in a payload is wrapped with success true. -/
theorem step_failure_semantics (llm : LlmFn) (action : String) (p : Params)
    (msg : String) (env : Env) (q : String) (plan : Plan)
    (h1 : ExecutorAgent.invoke llm action p = CapOutcome.raised msg)
    (hp : env.planner = PlanOutcome.ok plan)
    (hna : runAborted env q = false) :
    (ExecutorAgent.execute llm action p).success = false ∧
    (process_query env q).success = true ∧
    (process_query env q).step_results.length = plan.steps.length ∧
    ((process_query env q).step_results.all
      (fun sr => sr.success == CallRes.successFlag sr.result)) = true ∧
    (process_query env q).ctx.status =
      (if ((process_query env q).step_results.filter (fun s => ¬ s.success)).isEmpty
       then "completed" else "completed_with_errors") := by
  have hexec : (ExecutorAgent.execute llm action p).success = false := by
    by_cases hm : action ∈ availableActions
    · simp [ExecutorAgent.execute, hm, h1]
    · simp [ExecutorAgent.execute, hm]
  cases hr : runSteps env plan.steps [] (planningCtx env q) [] with
  | aborted e ctx2 =>
    unfold runAborted at hna
    rw [hp] at hna
    simp only [hr] at hna
    exact absurd hna (by decide)
  | done results buffer ctx2 =>
    obtain ⟨tail, tailE, hh1, hh2, hh3, hh4, hh5, hh6⟩ :=
      runSteps_done env plan.steps [] (planningCtx env q) [] results buffer ctx2 hr
    have hres : results = tail := by simpa using hh1
    have hlen : results.length = plan.steps.length := by
      have := congrArg List.length hh2
      simpa [hres] using this
    refine ⟨hexec, ?_, ?_, ?_, ?_⟩
    · simp [process_query, hp, hr]
    · simp only [process_query, hp, hr]
      exact hlen
    · simp only [process_query, hp, hr]
      rw [hres]
      exact hh3
    · simp only [process_query, hp, hr]

/-- C6 witness: a summarize step with no content parameter raises inside
the capability, the step fails, the run still completes with one recorded
step and status completed_with_errors. -/
theorem step_failure_semantics_witness :
    ExecutorAgent.invoke (fun _ => Except.ok "text") "summarize" [] =
      CapOutcome.raised "TypeError: missing argument content" ∧
    envStepRaise.planner = PlanOutcome.ok planStepRaise ∧
    runAborted envStepRaise "wq" = false ∧
    ((ExecutorAgent.execute (fun _ => Except.ok "text") "summarize" []).success = false ∧
     (process_query envStepRaise "wq").success = true ∧
     (process_query envStepRaise "wq").step_results.length =
       planStepRaise.steps.length ∧
     ((process_query envStepRaise "wq").step_results.all
       (fun sr => sr.success == CallRes.successFlag sr.result)) = true ∧
     (process_query envStepRaise "wq").ctx.status =
       (if ((process_query envStepRaise "wq").step_results.filter
           (fun s => ¬ s.success)).isEmpty
        then "completed" else "completed_with_errors")) :=
  ⟨rfl, rfl, rfl, step_failure_semantics (fun _ => Except.ok "text") "summarize" []
    "TypeError: missing argument content" envStepRaise "wq" planStepRaise rfl rfl rfl⟩

/-- Renaming task_type never touches keys other than title and
task_type. -/
theorem renameTaskType_pget_other (p : Params) (k : String)
    (hk1 : k ≠ "title") (hk2 : k ≠ "task_type") :
    pget (renameTaskType p) k = pget p k := by
  rw [renameTaskType]
  split_ifs with h
  · rw [pget_perase_ne _ _ _ hk2, pget_pset_ne _ _ _ _ hk1]
  · rfl

/-- Defaulting the title never touches other keys. -/
theorem defaultTitle_pget_other (t : String) (p : Params) (k : String)
    (hk1 : k ≠ "title") : pget (defaultTitle t p) k = pget p k := by
  rw [defaultTitle]
  split_ifs with h
  · rfl
  · exact pget_pset_ne _ _ _ _ hk1

/-- The title-fixing stage never touches keys other than title and
task_type. -/
theorem titleStage_pget_other (action : String) (p : Params) (k : String)
    (hk1 : k ≠ "title") (hk2 : k ≠ "task_type") :
    pget (titleStage action p) k = pget p k := by
  rw [titleStage, checklistFix, taskFix]
  split_ifs <;>
    simp [renameTaskType_pget_other, defaultTitle_pget_other, hk1, hk2]

/-- C7: for every create_task dispatch, the effective title is the
original title when present, else a present task_type value, else the
fixed placeholder; task_type survives only when a title was already
present (the rename deletes it); and the concrete parameters
with only task_type Follow up produce a task whose title is Follow up
with no remaining task_type field. -/
theorem create_task_param_mapping (llm : LlmFn) (p : Params) :
    pget (dispatchedParams llm "create_task" p) "title" =
      (if pcontains p "title" then pget p "title"
       else if pcontains p "task_type" then pget p "task_type"
       else some (JVal.str "Generated Task")) ∧
    pcontains (dispatchedParams llm "create_task" p) "task_type" =
      (pcontains p "title" && pcontains p "task_type") ∧
    ExecutorAgent.execute llm "create_task"
        (dispatchedParams llm "create_task" [("task_type", JVal.str "Follow up")]) =
      { success := true, action := "create_task"
        parameters := some [("title", JVal.str "Follow up")], error := none
        result := some (CapPayload.task (JVal.str "Follow up") (JVal.str "")
          (JVal.str "medium")) } := by
  have hfl : rcFlattenStage "create_task" p = Except.ok p := by
    rw [rcFlattenStage, if_neg]
    intro hcond
    exact absurd hcond.2 (by decide)
  have hd : dispatchedParams llm "create_task" p = titleStage "create_task" p := by
    simp [dispatchedParams, execute_executor_step, execRewrite, hfl]
  have hts : titleStage "create_task" p = taskFix "create_task" p := by
    rw [titleStage, checklistFix, if_neg (by decide)]
  have htf : taskFix "create_task" p = defaultTitle "Generated Task" (renameTaskType p) := by
    rw [taskFix, if_pos rfl]
  by_cases ht : pcontains p "title" = true
  · have hrn : renameTaskType p = p := by
      rw [renameTaskType, if_neg]
      intro hcond
      exact hcond.2 ht
    have hdt : defaultTitle "Generated Task" p = p := by
      rw [defaultTitle, if_neg]
      intro hcond
      exact hcond ht
    refine ⟨?_, ?_, rfl⟩
    · rw [hd, hts, htf, hrn, hdt, if_pos ht]
    · rw [hd, hts, htf, hrn, hdt, ht]
      simp
  · by_cases htt : pcontains p "task_type" = true
    · obtain ⟨x, hxe⟩ := Option.isSome_iff_exists.mp (by simpa [pcontains] using htt)
      have hrn : renameTaskType p = perase (pset p "title" x) "task_type" := by
        rw [renameTaskType, if_pos ⟨htt, ht⟩, hxe]
        rfl
      have hren : pget (perase (pset p "title" x) "task_type") "title" = some x := by
        rw [pget_perase_ne _ _ _ (show "title" ≠ "task_type" by decide), pget_pset_self]
      have hcont : pcontains (perase (pset p "title" x) "task_type") "title" = true := by
        simp [pcontains, hren]
      have hdt : defaultTitle "Generated Task" (perase (pset p "title" x) "task_type") =
          perase (pset p "title" x) "task_type" := by
        rw [defaultTitle, if_neg]
        intro hcond
        exact hcond hcont
      refine ⟨?_, ?_, rfl⟩
      · rw [hd, hts, htf, hrn, hdt, if_neg ht, if_pos htt, hren, hxe]
      · rw [hd, hts, htf, hrn, hdt, pcontains_perase_self]
        simp [ht]
    · have hrn : renameTaskType p = p := by
        rw [renameTaskType, if_neg]
        intro hcond
        exact htt hcond.1
      have hdt : defaultTitle "Generated Task" p =
          pset p "title" (JVal.str "Generated Task") := by
        rw [defaultTitle, if_pos ht]
      refine ⟨?_, ?_, rfl⟩
      · rw [hd, hts, htf, hrn, hdt, if_neg ht, if_neg htt, pget_pset_self]
      · rw [hd, hts, htf, hrn, hdt,
          pcontains_pset_ne p "title" (JVal.str "Generated Task") "task_type" (by decide)]
        simp [ht, htt]

/-- C4: for every content-action step dispatched with the injected
non-empty buffer, the rewrite succeeds, the effective content parameter is
the blank-line join of every buffered item rendered as From-source-colon-
content in buffer order, the raw retrieved-content parameter is removed,
and the capability dispatcher receives exactly the rewritten parameters;
in the concrete search-then-summarize run over doc1.pdf and doc2.pdf the
summarize step's logged content carries both source markers. -/
theorem retrieved_content_flattening (llm : LlmFn) (action : String)
    (p : Params) (buf : List RItem)
    (h1 : action ∈ contentActions) (_h2 : buf ≠ []) :
    dispatchOk llm action (injectBuffer p buf) = true ∧
    pget (dispatchedParams llm action (injectBuffer p buf)) "content" =
      some (JVal.str (combineBuffer buf)) ∧
    pcontains (dispatchedParams llm action (injectBuffer p buf))
      "retrieved_content" = false ∧
    execute_executor_step llm action (injectBuffer p buf) =
      Except.ok (dispatchedParams llm action (injectBuffer p buf),
        ExecutorAgent.execute llm action
          (dispatchedParams llm action (injectBuffer p buf))) ∧
    containsSub summContent "From doc1.pdf:" = true ∧
    containsSub summContent "From doc2.pdf:" = true := by
  have hinj : pcontains (injectBuffer p buf) "retrieved_content" = true := by
    rw [injectBuffer]
    exact pcontains_pset_self p _ _
  have hg : pget (injectBuffer p buf) "retrieved_content" = some (buffVal buf) := by
    rw [injectBuffer]
    exact pget_pset_self p _ _
  have hflat : rcFlattenStage action (injectBuffer p buf) =
      Except.ok (perase (pset (injectBuffer p buf) "content"
        (JVal.str (combineBuffer buf))) "retrieved_content") := by
    rw [rcFlattenStage, if_pos ⟨hinj, h1⟩, hg]
    simp [flattenRetrieved_buffVal]
  have hstage : dispatchedParams llm action (injectBuffer p buf) =
      titleStage action (perase (pset (injectBuffer p buf) "content"
        (JVal.str (combineBuffer buf))) "retrieved_content") := by
    simp [dispatchedParams, execute_executor_step, execRewrite, hflat]
  have hcget : pget (perase (pset (injectBuffer p buf) "content"
      (JVal.str (combineBuffer buf))) "retrieved_content") "content" =
      some (JVal.str (combineBuffer buf)) := by
    rw [pget_perase_ne _ _ _ (by decide), pget_pset_self]
  refine ⟨?_, ?_, ?_, ?_, by decide, by decide⟩
  · simp [dispatchOk, execute_executor_step, execRewrite, hflat]
  · rw [hstage, titleStage_pget_other _ _ _ (by decide) (by decide), hcget]
  · have hnone : pget (titleStage action (perase (pset (injectBuffer p buf) "content"
        (JVal.str (combineBuffer buf))) "retrieved_content")) "retrieved_content" =
        none := by
      rw [titleStage_pget_other _ _ _ (by decide) (by decide), pget_perase_self]
    rw [hstage]
    simp [pcontains, hnone]
  · rw [hstage]
    simp [execute_executor_step, execRewrite, hflat]

/-- C4 witness: a summarize dispatch over a one-item buffer. -/
theorem retrieved_content_flattening_witness :
    "summarize" ∈ contentActions ∧
    bufOne ≠ [] ∧
    (dispatchOk (fun _ => Except.ok "s") "summarize" (injectBuffer [] bufOne) = true ∧
     pget (dispatchedParams (fun _ => Except.ok "s") "summarize"
         (injectBuffer [] bufOne)) "content" =
       some (JVal.str (combineBuffer bufOne)) ∧
     pcontains (dispatchedParams (fun _ => Except.ok "s") "summarize"
         (injectBuffer [] bufOne)) "retrieved_content" = false ∧
     execute_executor_step (fun _ => Except.ok "s") "summarize"
         (injectBuffer [] bufOne) =
       Except.ok (dispatchedParams (fun _ => Except.ok "s") "summarize"
           (injectBuffer [] bufOne),
         ExecutorAgent.execute (fun _ => Except.ok "s") "summarize"
           (dispatchedParams (fun _ => Except.ok "s") "summarize"
             (injectBuffer [] bufOne))) ∧
     containsSub summContent "From doc1.pdf:" = true ∧
     containsSub summContent "From doc2.pdf:" = true) :=
  ⟨by decide, by decide, retrieved_content_flattening (fun _ => Except.ok "s")
    "summarize" [] bufOne (by decide) (by decide)⟩

/-- C9: for every Executor step run against a non-empty buffer, the driver
injects the whole buffer under retrieved_content; for an action outside
the content actions the parameter survives the rewrite, is handed to the
capability dispatcher, and is recorded in the step's logged input
parameters by the loop. -/
theorem retrieved_content_forwarding (env : Env) (s : Step) (buf : List RItem)
    (rest : List Step) (ctx : ConversationContext) (acc : List StepResult)
    (h1 : s.agent = "Executor") (h2 : buf ≠ [])
    (h3 : ¬ s.action ∈ contentActions) :
    dispatchOk env.llm s.action (injectBuffer s.parameters buf) = true ∧
    pget (dispatchedParams env.llm s.action (injectBuffer s.parameters buf))
      "retrieved_content" = some (buffVal buf) ∧
    runStep env s buf = Except.ok
      (CallRes.exec (ExecutorAgent.execute env.llm s.action
        (dispatchedParams env.llm s.action (injectBuffer s.parameters buf))),
       dispatchedParams env.llm s.action (injectBuffer s.parameters buf), buf) ∧
    runSteps env (s :: rest) buf ctx acc =
      runSteps env rest buf
        (ctx.add_entry s.agent s.action (LogData.stepLog s
          (dispatchedParams env.llm s.action (injectBuffer s.parameters buf))
          (CallRes.exec (ExecutorAgent.execute env.llm s.action
            (dispatchedParams env.llm s.action (injectBuffer s.parameters buf))))))
        (acc ++ [stepResultOf s (CallRes.exec (ExecutorAgent.execute env.llm s.action
          (dispatchedParams env.llm s.action (injectBuffer s.parameters buf))))]) := by
  have hfl : rcFlattenStage s.action (injectBuffer s.parameters buf) =
      Except.ok (injectBuffer s.parameters buf) := by
    rw [rcFlattenStage, if_neg]
    intro hc
    exact h3 hc.2
  have hstage : dispatchedParams env.llm s.action (injectBuffer s.parameters buf) =
      titleStage s.action (injectBuffer s.parameters buf) := by
    simp [dispatchedParams, execute_executor_step, execRewrite, hfl]
  have hbe : buf.isEmpty = false := by
    cases buf with
    | nil => exact absurd rfl h2
    | cons a b => rfl
  have hok : dispatchOk env.llm s.action (injectBuffer s.parameters buf) = true := by
    simp [dispatchOk, execute_executor_step, execRewrite, hfl]
  have hget : pget (dispatchedParams env.llm s.action (injectBuffer s.parameters buf))
      "retrieved_content" = some (buffVal buf) := by
    rw [hstage, titleStage_pget_other _ _ _ (by decide) (by decide), injectBuffer]
    exact pget_pset_self s.parameters _ _
  have hrs : runStep env s buf = Except.ok
      (CallRes.exec (ExecutorAgent.execute env.llm s.action
        (dispatchedParams env.llm s.action (injectBuffer s.parameters buf))),
       dispatchedParams env.llm s.action (injectBuffer s.parameters buf), buf) := by
    rw [hstage]
    simp only [runStep, h1]
    simp [hbe, execute_executor_step, execRewrite, hfl]
  refine ⟨hok, hget, hrs, ?_⟩
  simp only [runSteps]
  rw [hrs]

/-- C9 witness: a create_task step dispatched over a one-item buffer. -/
theorem retrieved_content_forwarding_witness :
    stepTaskFwd.agent = "Executor" ∧
    bufOne ≠ [] ∧
    ¬ stepTaskFwd.action ∈ contentActions ∧
    (dispatchOk envFwd.llm stepTaskFwd.action
        (injectBuffer stepTaskFwd.parameters bufOne) = true ∧
     pget (dispatchedParams envFwd.llm stepTaskFwd.action
         (injectBuffer stepTaskFwd.parameters bufOne)) "retrieved_content" =
       some (buffVal bufOne) ∧
     runStep envFwd stepTaskFwd bufOne = Except.ok
       (CallRes.exec (ExecutorAgent.execute envFwd.llm stepTaskFwd.action
         (dispatchedParams envFwd.llm stepTaskFwd.action
           (injectBuffer stepTaskFwd.parameters bufOne))),
        dispatchedParams envFwd.llm stepTaskFwd.action
          (injectBuffer stepTaskFwd.parameters bufOne), bufOne) ∧
     runSteps envFwd [stepTaskFwd] bufOne (createContext "s" "wq") [] =
       runSteps envFwd [] bufOne
         ((createContext "s" "wq").add_entry stepTaskFwd.agent stepTaskFwd.action
           (LogData.stepLog stepTaskFwd
             (dispatchedParams envFwd.llm stepTaskFwd.action
               (injectBuffer stepTaskFwd.parameters bufOne))
             (CallRes.exec (ExecutorAgent.execute envFwd.llm stepTaskFwd.action
               (dispatchedParams envFwd.llm stepTaskFwd.action
                 (injectBuffer stepTaskFwd.parameters bufOne))))))
         ([] ++ [stepResultOf stepTaskFwd
           (CallRes.exec (ExecutorAgent.execute envFwd.llm stepTaskFwd.action
             (dispatchedParams envFwd.llm stepTaskFwd.action
               (injectBuffer stepTaskFwd.parameters bufOne))))])) :=
  ⟨rfl, by decide, by decide, retrieved_content_forwarding envFwd stepTaskFwd bufOne
    [] (createContext "s" "wq") [] rfl (by decide) (by decide)⟩

/-- Re-ranking keeps the length. -/
theorem rerankFrom_length (l : List SearchItem) :
    ∀ n, (rerankFrom n l).length = l.length := by
  induction l with
  | nil => intro n; rfl
  | cons x xs ih => intro n; simp [rerankFrom, ih (n + 1)]

/-- C8: search_multiple_queries runs one search per query into a pooled
list, keeps at most one result per chunk id with the first occurrence
winning, sorts the deduplicated union by descending similarity score,
renumbers ranks 1..N contiguously, and reports the unique count; in the
concrete two-query overlap scenario the shared chunk appears once, ranked
by its score among the union rather than by its per-query position. -/
theorem search_multiple_queries_spec (store : StoreFn) (queries : List String)
    (k : Int) :
    (((RetrieverAgent.search_multiple_queries store queries k).results.map
        (fun x => x.chunk_id)).Nodup) ∧
    ((RetrieverAgent.search_multiple_queries store queries k).results.Pairwise
      (fun a b => b.similarity_score ≤ a.similarity_score)) ∧
    ((RetrieverAgent.search_multiple_queries store queries k).results.map
        (fun x => x.rank) =
      ranksFrom 1
        (RetrieverAgent.search_multiple_queries store queries k).results.length) ∧
    ((RetrieverAgent.search_multiple_queries store queries k).total_unique_results =
      (RetrieverAgent.search_multiple_queries store queries k).results.length) ∧
    ((RetrieverAgent.search_multiple_queries store queries k).results.all
      (isFirstOccurrence (searchPool store queries k)) = true) ∧
    ((searchPool store queries k).all (fun x =>
      (RetrieverAgent.search_multiple_queries store queries k).results.any
        (fun y => decide (y.chunk_id = x.chunk_id))) = true) ∧
    ((RetrieverAgent.search_multiple_queries storeOverlap ["a", "b"] 3).results.map
        (fun x => (x.chunk_id, x.rank, x.similarity_score)) =
      [(some 1, 1, 9000), (some 2, 2, 7000), (some 7, 3, 5000)]) := by
  have hres : (RetrieverAgent.search_multiple_queries store queries k).results =
      rerankFrom 1 (sortDescByScore (dedupById [] (searchPool store queries k))) := rfl
  refine ⟨?_, ?_, ?_, rfl, ?_, ?_, by decide⟩
  · rw [hres, rerankFrom_map_chunk_id]
    have hperm := (sortDescByScore_perm
      (dedupById [] (searchPool store queries k))).map (fun x => x.chunk_id)
    exact hperm.nodup_iff.mpr (dedup_ids_nodup (searchPool store queries k) [])
  · rw [hres]
    exact rerankFrom_pairwise _
      (sortDescByScore_pairwise (dedupById [] (searchPool store queries k))) 1
  · rw [hres, rerankFrom_map_rank, rerankFrom_length]
  · rw [List.all_eq_true]
    intro y hy
    rw [hres] at hy
    obtain ⟨y', hy', he⟩ := mem_rerankFrom _ _ _ hy
    have hy2 : y' ∈ dedupById [] (searchPool store queries k) :=
      (sortDescByScore_perm _).mem_iff.mp hy'
    obtain ⟨_, hfirst⟩ := dedup_mem_first (searchPool store queries k) [] y' hy2
    have hid : y.chunk_id = y'.chunk_id := by
      have h0 := congrArg SearchItem.chunk_id he
      simpa [unrank] using h0
    rw [isFirstOccurrence, hid, hfirst]
    simp [he]
  · rw [List.all_eq_true]
    intro x hx
    obtain ⟨y, hy, hid⟩ := dedup_complete (searchPool store queries k) [] x hx (by simp)
    have hy2 : y ∈ sortDescByScore (dedupById [] (searchPool store queries k)) :=
      (sortDescByScore_perm _).mem_iff.mpr hy
    have hmap : y.chunk_id ∈ (rerankFrom 1 (sortDescByScore
        (dedupById [] (searchPool store queries k)))).map (fun x => x.chunk_id) := by
      rw [rerankFrom_map_chunk_id]
      exact List.mem_map_of_mem _ hy2
    obtain ⟨z, hz, hzid⟩ := List.mem_map.mp hmap
    rw [List.any_eq_true]
    refine ⟨z, ?_, ?_⟩
    · rw [hres]
      exact hz
    · simp [hzid, hid]
